import Mathlib

/-!
Shallow embedding of `src/WebScanner/research_tool.py` (class `WebResearchTool`):
the research pipeline search → filter → extract → per-source analyze → synthesize.

Python dicts produced and consumed by the pipeline are modelled as `Json` objects
(ordered key/value lists, as Python dicts preserve insertion order).  The external
backends (Google search, HTTP fetch, Anthropic model calls) are modelled as fields
of an `Env` record: each backend call either yields a decoded value or an error
string, matching the `try/except` boundaries in the code.
-/

namespace WebScanner

/-- JSON values, the result type of `json.loads` and the shape of the dicts the
pipeline builds. -/
inductive Json where
  | str : String → Json
  | num : Int → Json
  | bool : Bool → Json
  | null : Json
  | arr : List Json → Json
  | obj : List (String × Json) → Json

/-- First-match key lookup in an object's field list (Python dicts have unique
keys, so first match is the match). -/
def lookupKey : List (String × Json) → String → Option Json
  | [], _ => none
  | p :: rest, k => if p.1 = k then some p.2 else lookupKey rest k

/-- Field lookup on a JSON value; `none` on non-objects and missing keys. -/
def Json.get (j : Json) (k : String) : Option Json :=
  match j with
  | .obj fields => lookupKey fields k
  | _ => none

/-- Does the JSON value have field `k`? -/
def Json.hasKey (j : Json) (k : String) : Bool :=
  (j.get k).isSome

/-- Python `dict.__setitem__`: overwrite the value at `k` in place if the key
exists, otherwise append `(k, v)` at the end. -/
def updateKey (fields : List (String × Json)) (k : String) (v : Json) :
    List (String × Json) :=
  if fields.any (fun p => p.1 = k) then
    fields.map (fun p => if p.1 = k then (k, v) else p)
  else
    fields ++ [(k, v)]

/-- Python `dict.update`: set every key of `updates`, in order, into `fields`. -/
def dictUpdate (fields updates : List (String × Json)) : List (String × Json) :=
  updates.foldl (fun acc p => updateKey acc p.1 p.2) fields

/-- One search result as built by `search_urls` (lines 53–58): keys
`url`, `title`, `snippet`, `source`, where `source = urlparse(link).netloc`. -/
structure SourceCandidate where
  url : String
  title : String
  snippet : String
  source : String
deriving Repr, DecidableEq

/-- The four metadata pairs of a candidate dict, in construction order;
`analysis.update(url_data)` (line 182) merges exactly these. -/
def SourceCandidate.toPairs (c : SourceCandidate) : List (String × Json) :=
  [("url", .str c.url), ("title", .str c.title),
   ("snippet", .str c.snippet), ("source", .str c.source)]

/-- Characters following the first `://` of the URL, if any. -/
def afterSchemeSep : List Char → Option (List Char)
  | [] => none
  | ':' :: '/' :: '/' :: rest => some rest
  | _ :: rest => afterSchemeSep rest

/-- Longest prefix not containing any of the stop characters. -/
def takeUntil (stops : List Char) : List Char → List Char
  | [] => []
  | ch :: rest => if ch ∈ stops then [] else ch :: takeUntil stops rest

/-- Python `urlparse(url).netloc` for `scheme://host/path?query#frag` URLs: the
text between `://` and the first of `/`, `?`, `#`; empty when the URL has no
`://`.  (Strings are handled as their character sequences.) -/
def netloc (url : String) : String :=
  match afterSchemeSep url.data with
  | none => ""
  | some rest => ⟨takeUntil ['/', '?', '#'] rest⟩

/-- Python `s.endswith(t)`: `t`'s character sequence is a suffix of `s`'s. -/
def strEndsWith (s t : String) : Bool :=
  t.data.isSuffixOf s.data

/-- The hard-coded trusted-domain list of `filter_urls` (lines 77–81). -/
def trusted_domains : List String :=
  ["nature.com", "science.org", "scientificamerican.com",
   "ieee.org", "acm.org", "arxiv.org", "gov", "edu",
   "github.com", "stackoverflow.com", "medium.com"]

/-- Lines 85–90: `domain = urlparse(url).netloc`; trusted iff
`any(domain.endswith(trusted) for trusted in trusted_domains)`. -/
def is_trusted (c : SourceCandidate) : Bool :=
  trusted_domains.any (fun t => strEndsWith (netloc c.url) t)

/-- `filter_urls` (lines 83–95): the append loop over candidates keeping the
trusted ones, then the slice `filtered_urls[:self.max_urls]`. -/
def filter_urls (max_urls : Nat) (urls : List SourceCandidate) :
    List SourceCandidate :=
  (urls.foldl (fun acc u => if is_trusted u then acc ++ [u] else acc) []).take
    max_urls

/-- One run's external world.  `search` is `search_urls` after its
catch-all `except` (backend errors already degraded to `[]`, line 64).
`extract` is `extract_text_from_url`: `none` on any fetch/parse failure.
`analyzeResp` is the per-source model call of `analyze_webpage` followed by
`json.loads`, keyed by candidate and (truncated) page content: `Except.error`
when the API call raises or the response text is not valid JSON.  `synthResp`
is the synthesis model call plus `json.loads`, keyed by the analyses list
serialized into the prompt.  `timestamp` models `datetime.now().isoformat()`.
`max_urls` is the constructor configuration (default 5). -/
structure Env where
  search : String → List SourceCandidate
  extract : String → Option String
  analyzeResp : SourceCandidate → String → Except String Json
  synthResp : List Json → Except String Json
  timestamp : String
  max_urls : Nat

/-- Lines 149–151: keep the first 12000 characters and append `"..."` when the
content is longer. -/
def truncateContent (content : String) : String :=
  if content.length > 12000 then content.take 12000 ++ "..." else content

/-- The `{url, error}` record both failure paths of `analyze_webpage` build
(lines 146 and 187). -/
def errorRecord (url msg : String) : Json :=
  .obj [("url", .str url), ("error", .str msg)]

/-- `analyze_webpage` (lines 133–187).  `if not content` is true for both
`None` and `""`.  On a decoded model response: a dict is merged with the
candidate metadata via `analysis.update(url_data)`; a non-dict makes
`.update` raise `AttributeError`, which the same `except` catches into an
error record.  A raised API error or `json.loads` failure is caught into an
error record carrying `str(e)`. -/
def analyze_webpage (env : Env) (c : SourceCandidate) : Json :=
  match env.extract c.url with
  | none => errorRecord c.url "Failed to extract content"
  | some content =>
    if content = "" then errorRecord c.url "Failed to extract content"
    else
      match env.analyzeResp c (truncateContent content) with
      | .error e => errorRecord c.url e
      | .ok analysis =>
        match analysis with
        | .obj fields => .obj (dictUpdate fields c.toPairs)
        | _ => errorRecord c.url "AttributeError: object has no attribute update"

/-- `research` (lines 189–265): search, the two early-exit error returns, the
per-candidate analysis loop, and the synthesis call whose failure is caught
into the partial result carrying `error` instead of `synthesis`. -/
def research (env : Env) (query : String) : Json :=
  let search_results := env.search query
  if search_results.isEmpty then
    .obj [("error", .str "No search results found")]
  else
    let filtered_urls := filter_urls env.max_urls search_results
    if filtered_urls.isEmpty then
      .obj [("error", .str "No reliable sources found")]
    else
      let analyses := filtered_urls.map (analyze_webpage env)
      match env.synthResp analyses with
      | .ok synthesis =>
        .obj [("query", .str query), ("timestamp", .str env.timestamp),
              ("sources_analyzed", .num analyses.length),
              ("webpage_analyses", .arr analyses),
              ("synthesis", synthesis)]
      | .error e =>
        .obj [("query", .str query), ("timestamp", .str env.timestamp),
              ("sources_analyzed", .num analyses.length),
              ("webpage_analyses", .arr analyses),
              ("error", .str e)]

/-- A record with `summary`, `key_findings` and `credibility` present and no
`error` field. -/
def analysisOk (j : Json) : Bool :=
  j.hasKey "summary" && j.hasKey "key_findings" && j.hasKey "credibility" &&
    !(j.hasKey "error")

/-- A record with an `error` field and none of the analysis fields. -/
def analysisErr (j : Json) : Bool :=
  j.hasKey "error" && !(j.hasKey "summary") && !(j.hasKey "key_findings") &&
    !(j.hasKey "credibility")

/-- The all-or-nothing shape the spec asserts for every analyzer record. -/
def allOrNothing (j : Json) : Bool :=
  analysisOk j || analysisErr j

/-- A decoded per-source model response that actually matches the schema the
prompt requests: a JSON object carrying the analysis fields and no `error`
key.  (The code never checks this; see the C6 theorems.) -/
def wellFormedResp : Json → Bool
  | .obj fields =>
    (lookupKey fields "summary").isSome && (lookupKey fields "key_findings").isSome &&
      (lookupKey fields "credibility").isSome && (lookupKey fields "error").isNone
  | _ => false

/-! Concrete candidates and environments used to exercise the pipeline. -/

def candNature : SourceCandidate :=
  ⟨"https://www.nature.com/articles/a1", "Nature article", "snippet1",
   "www.nature.com"⟩

def candGov : SourceCandidate :=
  ⟨"https://data.gov/set", "Gov data", "snippet2", "data.gov"⟩

def candEdu : SourceCandidate :=
  ⟨"https://cs.mit.edu/p", "Edu page", "snippet3", "cs.mit.edu"⟩

def candBlog : SourceCandidate :=
  ⟨"https://randomblog.xyz/post", "Blog", "snippet4", "randomblog.xyz"⟩

def candFakeGov : SourceCandidate :=
  ⟨"https://notrealgov/a", "Fake gov", "s", "notrealgov"⟩

def candFakeGithub : SourceCandidate :=
  ⟨"https://clonegithub.com/x", "Fake github", "s", "clonegithub.com"⟩

/-- A model response obeying the requested four-field schema. -/
def okAnalysisJson : Json :=
  .obj [("summary", .str "sum"), ("key_findings", .arr [.str "kf"]),
        ("credibility", .str "high"), ("date", .str "2024-01-01")]

/-- Spec round-trip scenario: three trusted sources, one extraction failure,
two successes, and a synthesis decode failure. -/
def envSynthFail : Env :=
  { search := fun _ => [candNature, candGov, candEdu],
    extract := fun url => if url = candGov.url then none else some "page text",
    analyzeResp := fun _ _ => .ok okAnalysisJson,
    synthResp := fun _ => .error "Expecting value: line 1 column 1 (char 0)",
    timestamp := "2025-01-01T00:00:00",
    max_urls := 5 }

/-- Discovery finds nothing. -/
def envNoResults : Env :=
  { search := fun _ => [],
    extract := fun _ => none,
    analyzeResp := fun _ _ => .error "unused",
    synthResp := fun _ => .error "unused",
    timestamp := "2025-01-01T00:00:00",
    max_urls := 5 }

/-- Discovery only finds an untrusted domain. -/
def envUntrusted : Env :=
  { envNoResults with search := fun _ => [candBlog] }

/-- Extraction fails for every URL. -/
def envExtractFail : Env :=
  { envNoResults with
    search := fun _ => [candNature],
    analyzeResp := fun _ _ => .ok okAnalysisJson }

/-- Extraction succeeds but the per-source model response is undecodable. -/
def envDecodeFail : Env :=
  { envNoResults with
    search := fun _ => [candNature],
    extract := fun _ => some "page text",
    analyzeResp := fun _ _ => .error "Expecting value: line 1 column 1 (char 0)" }

/-- Extraction succeeds and the model returns a well-formed analysis, and the
synthesis call also decodes. -/
def envAllOk : Env :=
  { envNoResults with
    search := fun _ => [candNature],
    extract := fun _ => some "page text",
    analyzeResp := fun _ _ => .ok okAnalysisJson,
    synthResp := fun _ => .ok (.obj [("answer", .str "a")]) }

/-- Extraction succeeds but the model returns a decodable object that is
missing most of the requested keys. -/
def envPartialResp : Env :=
  { envNoResults with
    search := fun _ => [candNature],
    extract := fun _ => some "page text",
    analyzeResp := fun _ _ => .ok (.obj [("summary", .str "s")]) }

/-! Helper lemmas about the embedded dictionary operations and the filter. -/

theorem filter_urls_foldl_eq (urls : List SourceCandidate)
    (acc : List SourceCandidate) :
    urls.foldl (fun acc u => if is_trusted u then acc ++ [u] else acc) acc =
      acc ++ urls.filter is_trusted := by
  induction urls generalizing acc with
  | nil => simp
  | cons u rest ih =>
    by_cases h : is_trusted u
    · simp [List.foldl_cons, h, ih, List.filter_cons]
    · simp [List.foldl_cons, h, ih, List.filter_cons]

theorem filter_urls_eq (max_urls : Nat) (urls : List SourceCandidate) :
    filter_urls max_urls urls = (urls.filter is_trusted).take max_urls := by
  simp [filter_urls, filter_urls_foldl_eq]

theorem lookupKey_append (a b : List (String × Json)) (k : String) :
    lookupKey (a ++ b) k = (lookupKey a k).elim (lookupKey b k) some := by
  induction a with
  | nil => simp [lookupKey]
  | cons p rest ih =>
    by_cases h : p.1 = k
    · simp [lookupKey, h]
    · simp [lookupKey, h, ih]

theorem lookupKey_eq_none (fs : List (String × Json)) (k : String)
    (h : fs.any (fun p => p.1 = k) = false) : lookupKey fs k = none := by
  induction fs with
  | nil => rfl
  | cons p rest ih =>
    simp only [List.any_cons, Bool.or_eq_false_iff, decide_eq_false_iff_not] at h
    simp [lookupKey, h.1, ih h.2]

theorem lookupKey_map_set_self (fs : List (String × Json)) (k : String) (v : Json)
    (h : fs.any (fun p => p.1 = k) = true) :
    lookupKey (fs.map (fun p => if p.1 = k then (k, v) else p)) k = some v := by
  induction fs with
  | nil => simp at h
  | cons p rest ih =>
    by_cases hp : p.1 = k
    · simp [lookupKey, hp]
    · simp only [List.any_cons, Bool.or_eq_true, decide_eq_true_eq] at h
      rcases h with h | h
      · exact absurd h hp
      · simp [lookupKey, hp, ih h]

theorem lookupKey_map_set_ne (fs : List (String × Json)) (k : String) (v : Json)
    (k' : String) (h : k' ≠ k) :
    lookupKey (fs.map (fun p => if p.1 = k then (k, v) else p)) k' =
      lookupKey fs k' := by
  induction fs with
  | nil => rfl
  | cons p rest ih =>
    simp only [List.map_cons]
    by_cases hp : p.1 = k
    · have hpk' : ¬p.1 = k' := by rw [hp]; exact Ne.symm h
      rw [if_pos hp]
      simp only [lookupKey]
      rw [if_neg (Ne.symm h), if_neg hpk', ih]
    · rw [if_neg hp]
      simp only [lookupKey, ih]

theorem lookupKey_updateKey_self (fs : List (String × Json)) (k : String)
    (v : Json) : lookupKey (updateKey fs k v) k = some v := by
  unfold updateKey
  by_cases h : fs.any (fun p => p.1 = k) = true
  · simp [h, lookupKey_map_set_self fs k v h]
  · simp only [Bool.not_eq_true] at h
    simp [h, lookupKey_append, lookupKey_eq_none fs k h, lookupKey]

theorem lookupKey_updateKey_ne (fs : List (String × Json)) (k : String)
    (v : Json) (k' : String) (h : k' ≠ k) :
    lookupKey (updateKey fs k v) k' = lookupKey fs k' := by
  unfold updateKey
  by_cases hf : fs.any (fun p => p.1 = k) = true
  · simp [hf, lookupKey_map_set_ne fs k v k' h]
  · simp only [Bool.not_eq_true] at hf
    simp only [hf, Bool.false_eq_true, if_false, lookupKey_append]
    cases hl : lookupKey fs k' with
    | some v' => simp
    | none => simp [lookupKey, Ne.symm h]

theorem dictUpdate_toPairs (fields : List (String × Json)) (c : SourceCandidate) :
    dictUpdate fields c.toPairs =
      updateKey (updateKey (updateKey (updateKey fields "url" (.str c.url))
        "title" (.str c.title)) "snippet" (.str c.snippet)) "source"
        (.str c.source) := rfl

theorem lookup_merge_other (fields : List (String × Json)) (c : SourceCandidate)
    (k : String) (h1 : k ≠ "url") (h2 : k ≠ "title") (h3 : k ≠ "snippet")
    (h4 : k ≠ "source") :
    lookupKey (dictUpdate fields c.toPairs) k = lookupKey fields k := by
  rw [dictUpdate_toPairs, lookupKey_updateKey_ne _ _ _ _ h4,
    lookupKey_updateKey_ne _ _ _ _ h3, lookupKey_updateKey_ne _ _ _ _ h2,
    lookupKey_updateKey_ne _ _ _ _ h1]

theorem lookup_merge_url (fields : List (String × Json)) (c : SourceCandidate) :
    lookupKey (dictUpdate fields c.toPairs) "url" = some (.str c.url) := by
  rw [dictUpdate_toPairs, lookupKey_updateKey_ne _ _ _ _ (by decide),
    lookupKey_updateKey_ne _ _ _ _ (by decide),
    lookupKey_updateKey_ne _ _ _ _ (by decide), lookupKey_updateKey_self]

theorem lookup_merge_title (fields : List (String × Json)) (c : SourceCandidate) :
    lookupKey (dictUpdate fields c.toPairs) "title" = some (.str c.title) := by
  rw [dictUpdate_toPairs, lookupKey_updateKey_ne _ _ _ _ (by decide),
    lookupKey_updateKey_ne _ _ _ _ (by decide), lookupKey_updateKey_self]

theorem lookup_merge_source (fields : List (String × Json)) (c : SourceCandidate) :
    lookupKey (dictUpdate fields c.toPairs) "source" = some (.str c.source) := by
  rw [dictUpdate_toPairs, lookupKey_updateKey_self]

theorem search_isEmpty_false (env : Env) (query : String)
    (h : env.search query ≠ []) : (env.search query).isEmpty = false := by
  cases hsr : env.search query with
  | nil => exact absurd hsr h
  | cons a t => rfl

theorem filtered_isEmpty_false (env : Env) (query : String)
    (h : filter_urls env.max_urls (env.search query) ≠ []) :
    (filter_urls env.max_urls (env.search query)).isEmpty = false := by
  cases hf : filter_urls env.max_urls (env.search query) with
  | nil => exact absurd hf h
  | cons a t => rfl

/-- When both early exits are passed, `research` analyzes every filtered
candidate and branches only on the synthesis response. -/
theorem research_reach (env : Env) (query : String)
    (h1 : env.search query ≠ [])
    (h2 : filter_urls env.max_urls (env.search query) ≠ []) :
    research env query =
      (match env.synthResp ((filter_urls env.max_urls (env.search query)).map
          (analyze_webpage env)) with
        | .ok synthesis =>
          Json.obj [("query", .str query), ("timestamp", .str env.timestamp),
            ("sources_analyzed", .num ((filter_urls env.max_urls
              (env.search query)).map (analyze_webpage env)).length),
            ("webpage_analyses", .arr ((filter_urls env.max_urls
              (env.search query)).map (analyze_webpage env))),
            ("synthesis", synthesis)]
        | .error e =>
          Json.obj [("query", .str query), ("timestamp", .str env.timestamp),
            ("sources_analyzed", .num ((filter_urls env.max_urls
              (env.search query)).map (analyze_webpage env)).length),
            ("webpage_analyses", .arr ((filter_urls env.max_urls
              (env.search query)).map (analyze_webpage env))),
            ("error", .str e)]) := by
  simp only [research, search_isEmpty_false env query h1,
    filtered_isEmpty_false env query h2, Bool.false_eq_true, if_false]

theorem analysisErr_errorRecord (u m : String) :
    analysisErr (errorRecord u m) = true := rfl

theorem allOrNothing_errorRecord (u m : String) :
    allOrNothing (errorRecord u m) = true := by
  simp [allOrNothing, analysisErr_errorRecord]

/-! Claim theorems. -/

/-- C2: every candidate in the filter's output has a domain (the `netloc` of
its URL, as `filter_urls` computes it) that equals or ends with at least one
trust-policy entry; no candidate matching no policy entry ever appears in the
filtered output. -/
theorem c2_filter_output_matches_trust_policy (max_urls : Nat)
    (urls : List SourceCandidate) (c : SourceCandidate)
    (hc : c ∈ filter_urls max_urls urls) :
    ∃ t ∈ trusted_domains,
      netloc c.url = t ∨ strEndsWith (netloc c.url) t = true := by
  rw [filter_urls_eq] at hc
  have hmem : c ∈ urls.filter is_trusted := List.mem_of_mem_take hc
  have htr : is_trusted c = true := (List.mem_filter.mp hmem).2
  unfold is_trusted at htr
  rcases List.any_eq_true.mp htr with ⟨t, ht, hend⟩
  exact ⟨t, ht, Or.inr (by simpa using hend)⟩

theorem c2_witness :
    candNature ∈ filter_urls 5 [candBlog, candNature] ∧
      ∃ t ∈ trusted_domains,
        netloc candNature.url = t ∨
          strEndsWith (netloc candNature.url) t = true := by
  refine ⟨by decide, c2_filter_output_matches_trust_policy 5 [candBlog, candNature]
    candNature (by decide)⟩

/-- C3: the filter's output is a subsequence of its input (order preserved),
its length is at most `min limit (number of trusted inputs)`, and it equals
the trusted sublist truncated *after* filtering. -/
theorem c3_filter_stable_truncate_after (max_urls : Nat)
    (urls : List SourceCandidate) :
    (filter_urls max_urls urls).Sublist urls ∧
      (filter_urls max_urls urls).length ≤
        min max_urls (urls.countP is_trusted) ∧
      filter_urls max_urls urls = (urls.filter is_trusted).take max_urls := by
  refine ⟨?_, ?_, filter_urls_eq _ _⟩
  · rw [filter_urls_eq]
    exact (List.take_sublist max_urls _).trans (List.filter_sublist urls)
  · rw [filter_urls_eq, List.length_take, ← List.countP_eq_length_filter]

/-- C10: the trust check is a raw string-suffix test with no domain-label
boundary: any candidate whose URL host ends with the characters of a policy
entry — no preceding dot required — is classified trusted and kept by
`filter_urls`. -/
theorem c10_suffix_match_has_no_label_boundary (c : SourceCandidate)
    (t : String) (ht : t ∈ trusted_domains)
    (hend : strEndsWith (netloc c.url) t = true) :
    is_trusted c = true ∧ ∀ n : Nat, 1 ≤ n → filter_urls n [c] = [c] := by
  have htr : is_trusted c = true :=
    List.any_eq_true.mpr ⟨t, ht, by simpa using hend⟩
  refine ⟨htr, fun n hn => ?_⟩
  rw [filter_urls_eq]
  rw [List.filter_cons, if_pos htr]
  simp only [List.filter_nil]
  exact List.take_of_length_le (by simpa using hn)

/-- C4: when the extracted text is absent or empty, the analyzer returns
exactly the `{url, error}` record — no summary/key_findings/credibility
fields — and its result does not depend on the model backend at all, i.e.
the model backend is not consulted. -/
theorem c4_extraction_failure_short_circuits (env : Env) (c : SourceCandidate)
    (h : env.extract c.url = none ∨ env.extract c.url = some "") :
    analyze_webpage env c =
        Json.obj [("url", .str c.url),
          ("error", .str "Failed to extract content")] ∧
      (∀ f, analyze_webpage { env with analyzeResp := f } c =
        analyze_webpage env c) ∧
      analysisErr (analyze_webpage env c) = true := by
  have heq : analyze_webpage env c =
      errorRecord c.url "Failed to extract content" := by
    rcases h with h | h <;> simp [analyze_webpage, h]
  have heq' : ∀ f, analyze_webpage { env with analyzeResp := f } c =
      errorRecord c.url "Failed to extract content" := by
    intro f
    rcases h with h | h <;> simp [analyze_webpage, h]
  refine ⟨heq, fun f => (heq' f).trans heq.symm, ?_⟩
  rw [heq]
  exact analysisErr_errorRecord _ _

theorem c4_witness :
    envExtractFail.extract candNature.url = none ∧
      analyze_webpage envExtractFail candNature =
        Json.obj [("url", .str candNature.url),
          ("error", .str "Failed to extract content")] :=
  ⟨rfl, (c4_extraction_failure_short_circuits envExtractFail candNature
    (Or.inl rfl)).1⟩

/-- C5: a model response of one candidate that cannot be decoded is caught
into a `{url, error}` record for that candidate only, and the orchestrator's
loop still produces exactly one record per filtered candidate, in order. -/
theorem c5_decode_failure_is_per_source :
    (∀ (env : Env) (c : SourceCandidate) (txt e : String),
        env.extract c.url = some txt → txt ≠ "" →
        env.analyzeResp c (truncateContent txt) = .error e →
        analyze_webpage env c =
          Json.obj [("url", .str c.url), ("error", .str e)]) ∧
      (∀ (env : Env) (query : String),
        env.search query ≠ [] →
        filter_urls env.max_urls (env.search query) ≠ [] →
        (research env query).get "webpage_analyses" =
          some (.arr ((filter_urls env.max_urls (env.search query)).map
            (analyze_webpage env)))) := by
  constructor
  · intro env c txt e hx hne hr
    simp [analyze_webpage, hx, hne, hr, errorRecord]
  · intro env query h1 h2
    rw [research_reach env query h1 h2]
    cases env.synthResp ((filter_urls env.max_urls (env.search query)).map
        (analyze_webpage env)) with
    | ok s => rfl
    | error e => rfl

theorem c5_witness :
    analyze_webpage envDecodeFail candNature =
        Json.obj [("url", .str candNature.url),
          ("error", .str "Expecting value: line 1 column 1 (char 0)")] ∧
      (research envDecodeFail "q").get "webpage_analyses" =
        some (.arr ((filter_urls envDecodeFail.max_urls
          (envDecodeFail.search "q")).map (analyze_webpage envDecodeFail))) :=
  ⟨c5_decode_failure_is_per_source.1 envDecodeFail candNature "page text"
      "Expecting value: line 1 column 1 (char 0)" rfl (by decide) rfl,
    c5_decode_failure_is_per_source.2 envDecodeFail "q" (by decide) (by decide)⟩

/-- C1: when the synthesis call fails or its response cannot be decoded,
`research` still returns the record with the query, the timestamp,
`sources_analyzed`, and the full ordered `webpage_analyses`, with an `error`
field in place of `synthesis`; the per-source records are not discarded. -/
theorem c1_synthesis_failure_keeps_partial_result (env : Env) (query e : String)
    (h1 : env.search query ≠ [])
    (h2 : filter_urls env.max_urls (env.search query) ≠ [])
    (h3 : env.synthResp ((filter_urls env.max_urls (env.search query)).map
      (analyze_webpage env)) = .error e) :
    research env query =
      Json.obj [("query", .str query), ("timestamp", .str env.timestamp),
        ("sources_analyzed", .num ((filter_urls env.max_urls
          (env.search query)).map (analyze_webpage env)).length),
        ("webpage_analyses", .arr ((filter_urls env.max_urls
          (env.search query)).map (analyze_webpage env))),
        ("error", .str e)] := by
  rw [research_reach env query h1 h2, h3]

theorem c1_witness :
    research envSynthFail "q" =
      Json.obj [("query", .str "q"),
        ("timestamp", .str "2025-01-01T00:00:00"),
        ("sources_analyzed", .num 3),
        ("webpage_analyses", .arr
          [.obj [("summary", .str "sum"), ("key_findings", .arr [.str "kf"]),
            ("credibility", .str "high"), ("date", .str "2024-01-01"),
            ("url", .str "https://www.nature.com/articles/a1"),
            ("title", .str "Nature article"), ("snippet", .str "snippet1"),
            ("source", .str "www.nature.com")],
           .obj [("url", .str "https://data.gov/set"),
            ("error", .str "Failed to extract content")],
           .obj [("summary", .str "sum"), ("key_findings", .arr [.str "kf"]),
            ("credibility", .str "high"), ("date", .str "2024-01-01"),
            ("url", .str "https://cs.mit.edu/p"),
            ("title", .str "Edu page"), ("snippet", .str "snippet3"),
            ("source", .str "cs.mit.edu")]]),
        ("error", .str "Expecting value: line 1 column 1 (char 0)")] := by
  rw [c1_synthesis_failure_keeps_partial_result envSynthFail "q"
    "Expecting value: line 1 column 1 (char 0)" (by decide) (by decide) rfl]
  rfl

/-- C7: for every run reaching the analysis stage, the returned record's
`sources_analyzed` equals the length of `webpage_analyses`, both equal the
number of filtered candidates processed, which is at most `max_urls`. -/
theorem c7_sources_analyzed_consistency (env : Env) (query : String)
    (h1 : env.search query ≠ [])
    (h2 : filter_urls env.max_urls (env.search query) ≠ []) :
    (research env query).get "sources_analyzed" =
        some (.num ((filter_urls env.max_urls (env.search query)).map
          (analyze_webpage env)).length) ∧
      (research env query).get "webpage_analyses" =
        some (.arr ((filter_urls env.max_urls (env.search query)).map
          (analyze_webpage env))) ∧
      ((filter_urls env.max_urls (env.search query)).map
          (analyze_webpage env)).length =
        (filter_urls env.max_urls (env.search query)).length ∧
      (filter_urls env.max_urls (env.search query)).length ≤ env.max_urls := by
  rw [research_reach env query h1 h2]
  refine ⟨?_, ?_, List.length_map _ _, ?_⟩
  · cases env.synthResp ((filter_urls env.max_urls (env.search query)).map
        (analyze_webpage env)) with
    | ok s => rfl
    | error e => rfl
  · cases env.synthResp ((filter_urls env.max_urls (env.search query)).map
        (analyze_webpage env)) with
    | ok s => rfl
    | error e => rfl
  · rw [filter_urls_eq, List.length_take]
    exact min_le_left _ _

theorem c7_witness :
    (research envSynthFail "q").get "sources_analyzed" =
        some (.num ((filter_urls envSynthFail.max_urls
          (envSynthFail.search "q")).map (analyze_webpage envSynthFail)).length) ∧
      (research envSynthFail "q").get "webpage_analyses" =
        some (.arr ((filter_urls envSynthFail.max_urls
          (envSynthFail.search "q")).map (analyze_webpage envSynthFail))) ∧
      ((filter_urls envSynthFail.max_urls (envSynthFail.search "q")).map
          (analyze_webpage envSynthFail)).length =
        (filter_urls envSynthFail.max_urls (envSynthFail.search "q")).length ∧
      (filter_urls envSynthFail.max_urls (envSynthFail.search "q")).length ≤
        envSynthFail.max_urls :=
  c7_sources_analyzed_consistency envSynthFail "q" (by decide) (by decide)

theorem c10_witness :
    (is_trusted candFakeGov = true ∧ filter_urls 5 [candFakeGov] = [candFakeGov]) ∧
      (is_trusted candFakeGithub = true ∧
        filter_urls 5 [candFakeGithub] = [candFakeGithub]) := by
  refine ⟨⟨?_, ?_⟩, ⟨?_, ?_⟩⟩
  · exact (c10_suffix_match_has_no_label_boundary candFakeGov "gov"
      (by decide) (by decide)).1
  · exact (c10_suffix_match_has_no_label_boundary candFakeGov "gov"
      (by decide) (by decide)).2 5 (by decide)
  · exact (c10_suffix_match_has_no_label_boundary candFakeGithub "github.com"
      (by decide) (by decide)).1
  · exact (c10_suffix_match_has_no_label_boundary candFakeGithub "github.com"
      (by decide) (by decide)).2 5 (by decide)

/-- C8 counterexample: the two terminal error records carry the code's exact
capitalized messages, not the lowercase strings of the claim. -/
theorem c8_counterexample :
    research envNoResults "no such topic exists 12345" ≠
        Json.obj [("error", .str "no search results found")] ∧
      research envUntrusted "q" ≠
        Json.obj [("error", .str "no reliable sources found")] := by
  have e1 : research envNoResults "no such topic exists 12345" =
      Json.obj [("error", .str "No search results found")] := rfl
  have e2 : research envUntrusted "q" =
      Json.obj [("error", .str "No reliable sources found")] := rfl
  rw [e1, e2]
  constructor <;> simp

/-- C8 (amended): when Discovery returns no candidates, `research` returns
exactly `{error: "No search results found"}`, and when the filter output is
empty it returns exactly `{error: "No reliable sources found"}` — the same
records as the claim up to the capitalization of the messages. -/
theorem c8_terminal_error_records (env : Env) (query : String) :
    (env.search query = [] →
        research env query =
          Json.obj [("error", .str "No search results found")]) ∧
      (env.search query ≠ [] →
        filter_urls env.max_urls (env.search query) = [] →
        research env query =
          Json.obj [("error", .str "No reliable sources found")]) := by
  constructor
  · intro h
    simp [research, h]
  · intro h1 h2
    have hb1 := search_isEmpty_false env query h1
    simp [research, hb1, h2]

theorem c8_witness :
    research envNoResults "no such topic exists 12345" =
        Json.obj [("error", .str "No search results found")] ∧
      research envUntrusted "q" =
        Json.obj [("error", .str "No reliable sources found")] :=
  ⟨(c8_terminal_error_records envNoResults "no such topic exists 12345").1 rfl,
    (c8_terminal_error_records envUntrusted "q").2 (by decide) (by decide)⟩

/-- C6 counterexample: a decodable model response that is a JSON object
missing the requested keys slips through unvalidated — the analyzer record
has `summary` but neither `key_findings` nor an `error` field, a partial mix
the claim rules out. -/
theorem c6_counterexample :
    (analyze_webpage envPartialResp candNature).hasKey "summary" = true ∧
      (analyze_webpage envPartialResp candNature).hasKey "key_findings" = false ∧
      (analyze_webpage envPartialResp candNature).hasKey "error" = false ∧
      allOrNothing (analyze_webpage envPartialResp candNature) = false :=
  ⟨rfl, rfl, rfl, rfl⟩

/-- C6 (amended): the all-or-nothing invariant holds for every analyzer
record provided every decoded per-source model response is a JSON object
containing `summary`, `key_findings` and `credibility` and no `error` key;
the code does not validate this, so a decoded object missing requested keys
produces a partial record. -/
theorem c6_all_or_nothing_for_wellformed_responses (env : Env)
    (c : SourceCandidate)
    (h : ∀ s j, env.analyzeResp c s = .ok j → wellFormedResp j = true) :
    allOrNothing (analyze_webpage env c) = true := by
  cases hx : env.extract c.url with
  | none =>
    have heq : analyze_webpage env c =
        errorRecord c.url "Failed to extract content" := by
      simp [analyze_webpage, hx]
    rw [heq]
    exact allOrNothing_errorRecord _ _
  | some content =>
    by_cases hcont : content = ""
    · have heq : analyze_webpage env c =
          errorRecord c.url "Failed to extract content" := by
        simp [analyze_webpage, hx, hcont]
      rw [heq]
      exact allOrNothing_errorRecord _ _
    · cases hr : env.analyzeResp c (truncateContent content) with
      | error e =>
        have heq : analyze_webpage env c = errorRecord c.url e := by
          simp [analyze_webpage, hx, hcont, hr]
        rw [heq]
        exact allOrNothing_errorRecord _ _
      | ok j =>
        have hw := h _ _ hr
        cases j with
        | str s => simp [wellFormedResp] at hw
        | num n => simp [wellFormedResp] at hw
        | bool b => simp [wellFormedResp] at hw
        | null => simp [wellFormedResp] at hw
        | arr l => simp [wellFormedResp] at hw
        | obj fields =>
          have heq : analyze_webpage env c =
              .obj (dictUpdate fields c.toPairs) := by
            simp [analyze_webpage, hx, hcont, hr]
          rw [heq]
          simp only [wellFormedResp, Bool.and_eq_true,
            Option.isNone_iff_eq_none] at hw
          obtain ⟨⟨⟨hs, hk⟩, hcred⟩, herr⟩ := hw
          have ls := lookup_merge_other fields c "summary"
            (by decide) (by decide) (by decide) (by decide)
          have lk := lookup_merge_other fields c "key_findings"
            (by decide) (by decide) (by decide) (by decide)
          have lc := lookup_merge_other fields c "credibility"
            (by decide) (by decide) (by decide) (by decide)
          have le := lookup_merge_other fields c "error"
            (by decide) (by decide) (by decide) (by decide)
          simp [allOrNothing, analysisOk, Json.hasKey, Json.get, ls, lk, lc,
            le, hs, hk, hcred, herr]

theorem c6_amended_witness :
    allOrNothing (analyze_webpage envAllOk candNature) = true :=
  c6_all_or_nothing_for_wellformed_responses envAllOk candNature
    (fun s j hj => by
      have hok : okAnalysisJson = j := Except.ok.inj hj
      rw [← hok]
      rfl)

/-- C9: when extraction succeeds with non-empty text and the model response
decodes to an object carrying the four requested fields and no `error` key,
the analyzer record has no `error` field, keeps the four content fields, and
has the candidate's `url`, `title` and domain (`source`) merged in. -/
theorem c9_success_merges_fields_and_metadata (env : Env) (c : SourceCandidate)
    (txt : String) (fields : List (String × Json))
    (hx : env.extract c.url = some txt) (hne : txt ≠ "")
    (hr : env.analyzeResp c (truncateContent txt) = .ok (.obj fields))
    (hs : (lookupKey fields "summary").isSome = true)
    (hk : (lookupKey fields "key_findings").isSome = true)
    (hcred : (lookupKey fields "credibility").isSome = true)
    (hd : (lookupKey fields "date").isSome = true)
    (he : lookupKey fields "error" = none) :
    ((analyze_webpage env c).hasKey "summary" = true ∧
        (analyze_webpage env c).hasKey "key_findings" = true ∧
        (analyze_webpage env c).hasKey "credibility" = true ∧
        (analyze_webpage env c).hasKey "date" = true) ∧
      (analyze_webpage env c).get "error" = none ∧
      (analyze_webpage env c).get "url" = some (.str c.url) ∧
      (analyze_webpage env c).get "title" = some (.str c.title) ∧
      (analyze_webpage env c).get "source" = some (.str c.source) := by
  have heq : analyze_webpage env c = .obj (dictUpdate fields c.toPairs) := by
    simp [analyze_webpage, hx, hne, hr]
  rw [heq]
  have ls := lookup_merge_other fields c "summary"
    (by decide) (by decide) (by decide) (by decide)
  have lk := lookup_merge_other fields c "key_findings"
    (by decide) (by decide) (by decide) (by decide)
  have lc := lookup_merge_other fields c "credibility"
    (by decide) (by decide) (by decide) (by decide)
  have ld := lookup_merge_other fields c "date"
    (by decide) (by decide) (by decide) (by decide)
  have le := lookup_merge_other fields c "error"
    (by decide) (by decide) (by decide) (by decide)
  refine ⟨⟨?_, ?_, ?_, ?_⟩, ?_, ?_, ?_, ?_⟩
  · simp [Json.hasKey, Json.get, ls, hs]
  · simp [Json.hasKey, Json.get, lk, hk]
  · simp [Json.hasKey, Json.get, lc, hcred]
  · simp [Json.hasKey, Json.get, ld, hd]
  · simp [Json.get, le, he]
  · simp [Json.get, lookup_merge_url]
  · simp [Json.get, lookup_merge_title]
  · simp [Json.get, lookup_merge_source]

theorem c9_witness :
    ((analyze_webpage envAllOk candNature).hasKey "summary" = true ∧
        (analyze_webpage envAllOk candNature).hasKey "key_findings" = true ∧
        (analyze_webpage envAllOk candNature).hasKey "credibility" = true ∧
        (analyze_webpage envAllOk candNature).hasKey "date" = true) ∧
      (analyze_webpage envAllOk candNature).get "error" = none ∧
      (analyze_webpage envAllOk candNature).get "url" =
        some (.str candNature.url) ∧
      (analyze_webpage envAllOk candNature).get "title" =
        some (.str candNature.title) ∧
      (analyze_webpage envAllOk candNature).get "source" =
        some (.str candNature.source) :=
  c9_success_merges_fields_and_metadata envAllOk candNature "page text"
    [("summary", .str "sum"), ("key_findings", .arr [.str "kf"]),
      ("credibility", .str "high"), ("date", .str "2024-01-01")]
    rfl (by decide) rfl rfl rfl rfl rfl rfl

end WebScanner
